import Mathlib

/-!
Shallow embedding of the `k8sclientkit` Go package (src/types.go and
src/dynamic-helper.go) and proofs about its behaviour.

Conventions of the embedding:
- Go errors are modelled as `GoError := String`; `github.com/pkg/errors.Wrap`
  becomes `errorsWrap` producing the "message: cause" string it renders to.
- Go `nil`-able results are `Option`, fallible calls return `Except GoError _`.
- External collaborators (client-go builders, discovery, the controller-runtime
  cluster client) are modelled at their interface boundary as record fields of
  function type, supplied by the caller of the embedded constructor.
- Go maps are association lists; assignment `m[k] = v` is `assocUpsert`,
  which overwrites an existing key and appends a fresh one.
- Mutation of a receiver becomes returning an updated copy of the structure.
-/

namespace K8sClientKit

/-- Go errors, modelled by the string they render to. -/
abbrev GoError := String

/-- `errors.Wrap(err, msg)` from github.com/pkg/errors renders as "msg: err". -/
def errorsWrap (e : GoError) (msg : String) : GoError :=
  msg ++ ": " ++ e

/-- `schema.GroupVersion` (k8s.io/apimachinery). -/
structure GroupVersion where
  Group : String
  Version : String
deriving DecidableEq

/-- `GroupVersion.String()`: "group/version", or just the version for the
legacy empty group. -/
def GroupVersion.toStr (gv : GroupVersion) : String :=
  if gv.Group = "" then gv.Version else gv.Group ++ "/" ++ gv.Version

/-- `schema.GroupVersionKind` (k8s.io/apimachinery). -/
structure GroupVersionKind where
  Group : String
  Version : String
  Kind : String
deriving DecidableEq

/-- `GroupVersionKind.GroupVersion()`. -/
def GroupVersionKind.groupVersion (gvk : GroupVersionKind) : GroupVersion :=
  { Group := gvk.Group, Version := gvk.Version }

/-- `GroupVersionKind.String()` from apimachinery: "group/version, Kind=kind". -/
def GroupVersionKind.toStr (gvk : GroupVersionKind) : String :=
  gvk.Group ++ "/" ++ gvk.Version ++ ", Kind=" ++ gvk.Kind

/-- `schema.GroupVersionResource` (k8s.io/apimachinery). -/
structure GroupVersionResource where
  Group : String
  Version : String
  Resource : String
deriving DecidableEq

/-- `metav1.APIResource`, restricted to the fields the code reads
(`Name`, `Kind`). -/
structure APIResource where
  Name : String
  Kind : String
deriving DecidableEq

/-- `metav1.APIResourceList`, restricted to the `APIResources` slice. -/
structure APIResourceList where
  APIResources : List APIResource
deriving DecidableEq

/-- An `unstructured.Unstructured` document, restricted to the accessors the
code uses: `GroupVersionKind()`, `GetNamespace()`, `GetName()`. -/
structure K8sObject where
  Gvk : GroupVersionKind
  Namespace : String
  Name : String
deriving DecidableEq

/-- `UnstructuredApplyResult` from src/types.go. -/
structure UnstructuredApplyResult where
  Gvk : GroupVersionKind
  Success : Bool
  Error : Option GoError
  ResultObject : Option K8sObject
deriving DecidableEq

/-- `client.CreateOptions` (sigs.k8s.io/controller-runtime), restricted to the
field the code sets. -/
structure CreateOptions where
  FieldManager : String
deriving DecidableEq

/-- The controller-runtime `client.Client` held by the cluster, modelled at its
interface boundary: `createErr obj opts` is the error `Create` returns for
`obj` (none on success), and `patchErr` stands for the patch/update surface of
the same client, recorded only so that theorems can state which operation
`ApplyUnstructuredObj` consults. -/
structure ClusterClient where
  createErr : K8sObject → CreateOptions → Option GoError
  patchErr : K8sObject → CreateOptions → Option GoError

/-- `cluster.Cluster` (sigs.k8s.io/controller-runtime): its `GetClient()` and
`GetScheme()` surfaces. A scheme is modelled by the set of group/versions
registered in it. -/
structure Cluster where
  client : ClusterClient
  scheme : List GroupVersion

/-- `DiscoveryClient` surface used by the code: `ServerResourcesForGroupVersion`
and the `ServerVersion` connectivity probe (`none` means the probe succeeds). -/
structure DiscoveryClient where
  ServerResourcesForGroupVersion : String → Except GoError APIResourceList
  serverVersionErr : Option GoError

/-- `kubernetes.Clientset`, restricted to its `DiscoveryClient`. -/
structure Clientset where
  DiscoveryClient : DiscoveryClient

/-- The dynamic client handle; none of its behaviour is consulted by the code
under verification. -/
abbrev DynamicClient := Unit

/-- `rest.Config`, restricted to the fields the code reads or writes. -/
structure RestConfig where
  Host : String
  ServerName : String
  BearerToken : String
deriving DecidableEq

/-- `GenericK8sClient` from src/dynamic-helper.go. The lifecycle context and
the scheme mutex are elided: the embedding is sequential, so the mutex guard
around `AddScheme` is represented by `AddScheme` being an atomic step. -/
structure GenericK8sClient where
  TargetK8sApiServerId : String
  AuthType : String
  kubeConfigPresent : Bool
  restConfig : RestConfig
  runtimeCluster : Cluster
  standardClient : Clientset
  dynamicClient : DynamicClient

/-- `GetRuntimeCluster` from src/dynamic-helper.go. -/
def GenericK8sClient.GetRuntimeCluster (c : GenericK8sClient) : Cluster :=
  c.runtimeCluster

/-- `GetStandardClient` from src/dynamic-helper.go. -/
def GenericK8sClient.GetStandardClient (c : GenericK8sClient) : Clientset :=
  c.standardClient

/-- `Cluster.GetClient`. -/
def Cluster.GetClient (cl : Cluster) : ClusterClient :=
  cl.client

/-- `ApplyUnstructuredObj` from src/dynamic-helper.go: issues a `Create` on the
runtime cluster's client under the given field manager and reports the result.
The `ctx` argument is elided (the embedding is sequential). -/
def GenericK8sClient.ApplyUnstructuredObj (c : GenericK8sClient) (obj : K8sObject)
    (filedManager : String) : UnstructuredApplyResult × Option GoError :=
  let err := (c.GetRuntimeCluster.GetClient).createErr obj { FieldManager := filedManager }
  ({ Gvk := obj.Gvk
     Error := err
     Success := err.isNone
     ResultObject := some obj }, err)

/-- `ApplyUnstructuredObjsBatch` from src/dynamic-helper.go: applies each
object in order, appending the per-object result to the failed list when the
single apply returned an error and to the successful list otherwise. -/
def GenericK8sClient.ApplyUnstructuredObjsBatch (c : GenericK8sClient)
    (objs : List K8sObject) (fieldManager : String) :
    List UnstructuredApplyResult × List UnstructuredApplyResult :=
  match objs with
  | [] => ([], [])
  | obj :: rest =>
      let r := c.ApplyUnstructuredObj obj fieldManager
      let rec' := c.ApplyUnstructuredObjsBatch rest fieldManager
      match r.2 with
      | some _ => (rec'.1, r.1 :: rec'.2)
      | none => (r.1 :: rec'.1, rec'.2)

/-- `GvkToGvr` from src/dynamic-helper.go: discovery for the kind's
group/version, scan for a Kind match, build the GVR from the input's group and
version plus the matched entry's resource name; a missing match produces the
not-found error carrying `gvk.String()`; a discovery error is returned as is. -/
def GenericK8sClient.GvkToGvr (c : GenericK8sClient) (gvk : GroupVersionKind) :
    Except GoError GroupVersionResource :=
  match c.GetStandardClient.DiscoveryClient.ServerResourcesForGroupVersion gvk.groupVersion.toStr with
  | .error e => .error e
  | .ok resourcesList =>
      match resourcesList.APIResources.find? (fun resource => resource.Kind = gvk.Kind) with
      | some resource =>
          .ok { Group := gvk.Group, Version := gvk.Version, Resource := resource.Name }
      | none => .error ("未找到目标资源:" ++ gvk.toStr)

/-- `runtime.Scheme.IsVersionRegistered`: a scheme is modelled by the list of
group/versions registered in it. -/
def IsVersionRegistered (s : List GroupVersion) (gv : GroupVersion) : Bool :=
  s.contains gv

/-- `AddScheme` from src/dynamic-helper.go: under the scheme mutex (the
embedding is sequential, so the locked section is one atomic step), check
`IsVersionRegistered` and run `addSchemeFunc` on the cluster's scheme only if
the group/version is not yet registered. The callback returns the updated
scheme together with its `error`, which the Go code discards. The returned
`Bool` records whether the callback was invoked; the Go method itself returns
nothing. -/
def GenericK8sClient.AddScheme (c : GenericK8sClient) (gv : GroupVersion)
    (addSchemeFunc : List GroupVersion → List GroupVersion × Option GoError) :
    GenericK8sClient × Bool :=
  if ¬ IsVersionRegistered c.runtimeCluster.scheme gv then
    ({ c with runtimeCluster :=
        { c.runtimeCluster with scheme := (addSchemeFunc c.runtimeCluster.scheme).1 } }, true)
  else
    (c, false)

/-- `AuthTypeToken` from src/dynamic-helper.go. -/
def AuthTypeToken : String := "TOKEN"

/-- `AuthTypeKubeConfigBytes` from src/dynamic-helper.go. -/
def AuthTypeKubeConfigBytes : String := "KUBECONFIG_BYTES"

/-- `AuthTypeInCluster` from src/dynamic-helper.go. -/
def AuthTypeInCluster : String := "IN_CLUSTER"

/-- `clientcmdapi.Cluster`, restricted to the fields the code sets. -/
structure ClusterEntry where
  Server : String
  TLSServerName : String
  InsecureSkipTLSVerify : Bool
  CertificateAuthorityData : String
deriving DecidableEq

/-- `clientcmdapi.AuthInfo`, restricted to the fields the code sets
(client certificate and key are left nil by the code). -/
structure AuthInfo where
  Token : String
deriving DecidableEq

/-- `clientcmdapi.Context`. -/
structure KubeContext where
  Cluster : String
  AuthInfo : String
  Namespace : String
deriving DecidableEq

/-- `clientcmdapi.Config`: named cluster/auth/context maps plus the current
context. -/
structure KubeConfig where
  Clusters : List (String × ClusterEntry)
  AuthInfos : List (String × AuthInfo)
  Contexts : List (String × KubeContext)
  CurrentContext : String
deriving DecidableEq

/-- A `clientcmd.ClientConfig` as returned by `NewClientConfigFromBytes`:
its only consulted surface is `ClientConfig()`, which yields a rest config or
an error. -/
structure ClientConfigHandle where
  clientConfig : Except GoError RestConfig

/-- The client-go / controller-runtime builders the constructors call, modelled
at their interface boundary. `dynamic.NewForConfig` yields the opaque dynamic
handle; `kubernetes.NewForConfig` yields a clientset whose discovery surface
(including the `ServerVersion` probe) is part of the returned value. -/
structure BuildEnv where
  defaultClientConfig : KubeConfig → Except GoError RestConfig
  dynamicNewForConfig : RestConfig → Except GoError DynamicClient
  kubernetesNewForConfig : RestConfig → Except GoError Clientset
  clusterNew : RestConfig → Except GoError Cluster
  newClientConfigFromBytes : String → Except GoError ClientConfigHandle
  inClusterConfig : Except GoError RestConfig

/-- `newGenericK8sClientWithKubeConfigObj` from src/dynamic-helper.go: build
the rest config from the kubeconfig object, then the dynamic client, the
standard client and the controller-runtime cluster, wrapping each stage's
error. No connectivity probe is performed on this path. -/
def newGenericK8sClientWithKubeConfigObj (env : BuildEnv) (id authType : String)
    (config : KubeConfig) : Except GoError GenericK8sClient :=
  match env.defaultClientConfig config with
  | .error e => .error (errorsWrap e "使用clientcmdapi.Config方式构建rest client config失败")
  | .ok restClientConfig =>
  match env.dynamicNewForConfig restClientConfig with
  | .error e => .error (errorsWrap e "创建dynamic client失败")
  | .ok dc =>
  match env.kubernetesNewForConfig restClientConfig with
  | .error e => .error (errorsWrap e "创建standard client失败")
  | .ok sc =>
  match env.clusterNew restClientConfig with
  | .error e => .error (errorsWrap e "创建runtime-controller.Cluster")
  | .ok clusterCli =>
      .ok { TargetK8sApiServerId := id
            AuthType := authType
            kubeConfigPresent := true
            restConfig := restClientConfig
            standardClient := sc
            dynamicClient := dc
            runtimeCluster := clusterCli }

/-- `newGenericK8sClientWithRestConfig` from src/dynamic-helper.go: build the
dynamic client and the standard client, then probe connectivity with
`sc.ServerVersion()` — failing construction with the "无法连接到集群" wrap if
the probe errors — and finally build the controller-runtime cluster. -/
def newGenericK8sClientWithRestConfig (env : BuildEnv) (id authType : String)
    (config : RestConfig) : Except GoError GenericK8sClient :=
  match env.dynamicNewForConfig config with
  | .error e => .error (errorsWrap e "创建dynamic client失败")
  | .ok dc =>
  match env.kubernetesNewForConfig config with
  | .error e => .error (errorsWrap e "创建standard client失败")
  | .ok sc =>
  match sc.DiscoveryClient.serverVersionErr with
  | some e => .error (errorsWrap e "无法连接到集群")
  | none =>
  match env.clusterNew config with
  | .error e => .error (errorsWrap e "创建runtime-controller.Cluster")
  | .ok clusterCli =>
      .ok { TargetK8sApiServerId := id
            AuthType := authType
            kubeConfigPresent := false
            restConfig := config
            standardClient := sc
            dynamicClient := dc
            runtimeCluster := clusterCli }

/-- `NewGenericK8sClientWithToken` from src/dynamic-helper.go: assemble a
single-context kubeconfig object around the server URL, bearer token, CA
bundle, optional TLS server name and skip-verify flag, and delegate to
`newGenericK8sClientWithKubeConfigObj` with the TOKEN auth type. The
single-context kubeconfig object it assembles inline is factored out here as
`tokenKubeConfig` so that theorems can refer to it. -/
def tokenKubeConfig (apiServerUrl token caPem optionalTLSServerName : String)
    (skipTLSVerify : Bool) : KubeConfig :=
  { Clusters := [("cluster",
      { Server := apiServerUrl
        TLSServerName := optionalTLSServerName
        InsecureSkipTLSVerify := skipTLSVerify
        CertificateAuthorityData := caPem })]
    AuthInfos := [("cluster", { Token := token })]
    Contexts := [("cluster",
      { Cluster := "cluster", AuthInfo := "cluster", Namespace := "default" })]
    CurrentContext := "cluster" }

/-- `NewGenericK8sClientWithToken` from src/dynamic-helper.go, continued: the
delegation step on the assembled kubeconfig. -/
def NewGenericK8sClientWithToken (env : BuildEnv)
    (id apiServerUrl token : String) (caPem : String)
    (optionalTLSServerName : String) (skipTLSVerify : Bool) :
    Except GoError GenericK8sClient :=
  let config : KubeConfig :=
    tokenKubeConfig apiServerUrl token caPem optionalTLSServerName skipTLSVerify
  newGenericK8sClientWithKubeConfigObj env id AuthTypeToken config

/-- `NewGenericK8sClientWithKubeConfigBytes` from src/dynamic-helper.go: parse
the kubeconfig bytes, resolve the rest config, override the TLS server name
when the override's length exceeds 1, and delegate to
`newGenericK8sClientWithRestConfig` with the KUBECONFIG_BYTES auth type. -/
def NewGenericK8sClientWithKubeConfigBytes (env : BuildEnv)
    (id : String) (kubeConfig : String) (overrideSNIServerName : String) :
    Except GoError GenericK8sClient :=
  match env.newClientConfigFromBytes kubeConfig with
  | .error e => .error (errorsWrap e "无法使用指定KubeConfig bytes创建client config")
  | .ok clientConfig =>
  match clientConfig.clientConfig with
  | .error e =>
      .error (errorsWrap e "无法使用Kubeconfig bytes生成的clientcmd.ClientConfig创建rest client config")
  | .ok config =>
      let config := if overrideSNIServerName.length > 1 then
          { config with ServerName := overrideSNIServerName }
        else config
      newGenericK8sClientWithRestConfig env id AuthTypeKubeConfigBytes config

/-- `NewGenericK8sClientInCluster` from src/dynamic-helper.go: obtain the
in-cluster rest config and delegate to `newGenericK8sClientWithRestConfig`
with the IN_CLUSTER auth type. -/
def NewGenericK8sClientInCluster (env : BuildEnv) (id : String) :
    Except GoError GenericK8sClient :=
  match env.inClusterConfig with
  | .error e => .error (errorsWrap e "无法从使用集群内配置(挂载的ServiceAccount token)构建rest client")
  | .ok config => newGenericK8sClientWithRestConfig env id AuthTypeInCluster config

/-- `WatcherTypeDynamic` from src/types.go. -/
def WatcherTypeDynamic : String := "Dynamic"

/-- `WatcherTypeStandard` from src/types.go. -/
def WatcherTypeStandard : String := "Standard"

/-- `metav1.ListOptions`, restricted to a representative field; the tweak
function is passed through to the informer but never consulted by the code
under verification. -/
structure ListOptions where
  LabelSelector : String
deriving DecidableEq

/-- `dynamicinformer.TweakListOptionsFunc`. -/
def TweakListOptionsFunc := ListOptions → ListOptions

/-- `cache.IndexFunc`: client-go returns `([]string, error)`; on the
metadata-bearing objects of this embedding the error is always nil, so the
function is total. -/
def IndexFunc := K8sObject → List String

/-- `cache.Indexers`: a Go map from index name to index function. -/
def Indexers := List (String × IndexFunc)

/-- `cache.NamespaceIndex` (client-go): the name of the default namespace
index. -/
def NamespaceIndex : String := "namespace"

/-- `cache.MetaNamespaceIndexFunc` (client-go): indexes an object by its
namespace alone. -/
def MetaNamespaceIndexFunc : IndexFunc :=
  fun obj => [obj.Namespace]

/-- Go map assignment `m[k] = v` on an association list: overwrite the entry
for an existing key, append a fresh key. -/
def assocUpsert {α : Type} (m : List (String × α)) (k : String) (v : α) :
    List (String × α) :=
  if (m.lookup k).isSome then
    m.map (fun p => if p.1 = k then (k, v) else p)
  else
    m ++ [(k, v)]

/-- `cache.MetaNamespaceKeyFunc` applied to a metadata-bearing object:
"namespace/name", or the bare name for the empty namespace. -/
def metaNamespaceKeyOfObject (obj : K8sObject) : String :=
  if obj.Namespace.length > 0 then obj.Namespace ++ "/" ++ obj.Name else obj.Name

/-- A value passed through Go `interface\x7b\x7d` into the store's key
function: a real object, a `cache.ExplicitKey`, a
`cache.DeletedFinalStateUnknown` tombstone, or a plain Go string (which is
none of the former). -/
inductive StoreArg where
  | obj (o : K8sObject)
  | explicitKey (k : String)
  | deletedFinalStateUnknown (key : String) (o : K8sObject)
  | str (s : String)

/-- `cache.MetaNamespaceKeyFunc` (client-go): an `ExplicitKey` passes through;
an object with metadata yields its namespace/name key; anything else —
including a plain Go string — fails `meta.Accessor` with "object has no meta".
The `%+v` rendering of the offending value inside the real message is elided. -/
def MetaNamespaceKeyFunc : StoreArg → Except GoError String
  | .explicitKey k => .ok k
  | .obj o => .ok (metaNamespaceKeyOfObject o)
  | .deletedFinalStateUnknown _ _ =>
      .error "object has no meta: object does not implement the Object interfaces"
  | .str _ =>
      .error "object has no meta: object does not implement the Object interfaces"

/-- `cache.DeletionHandlingMetaNamespaceKeyFunc` (client-go): unwrap a
`DeletedFinalStateUnknown` tombstone to its stored key, otherwise defer to
`MetaNamespaceKeyFunc`. This is the key function `NewSharedIndexInformer`
installs on the informer's indexer. -/
def DeletionHandlingMetaNamespaceKeyFunc : StoreArg → Except GoError String
  | .deletedFinalStateUnknown key _ => .ok key
  | a => MetaNamespaceKeyFunc a

/-- The informer's indexed store (`cache.Indexer`): primary items keyed by the
namespace/name key, plus the configured index functions. -/
structure CacheStore where
  items : List (String × K8sObject)
  indexers : List (String × IndexFunc)

/-- `cache.Store.GetByKey`. -/
def CacheStore.GetByKey (s : CacheStore) (key : String) :
    Option K8sObject × Bool × Option GoError :=
  match s.items.lookup key with
  | some item => (some item, true, none)
  | none => (none, false, none)

/-- `cache.Store.Get` (client-go): run the store's key function
(`DeletionHandlingMetaNamespaceKeyFunc`) on the argument; on a key-function
error return `(nil, false, KeyError)`, otherwise defer to `GetByKey`. -/
def CacheStore.Get (s : CacheStore) (arg : StoreArg) :
    Option K8sObject × Bool × Option GoError :=
  match DeletionHandlingMetaNamespaceKeyFunc arg with
  | .error e => (none, false, some ("could not create key for object: " ++ e))
  | .ok key => s.GetByKey key

/-- The externally observable actions a caller-supplied event handler
performs when invoked; the Go callbacks return nothing and have no access to
the watcher's unexported fields, so their behaviour is modelled as a pure
trace. -/
abbrev HandlerTrace := List String

/-- `cache.ResourceEventHandlerFuncs`. -/
structure ResourceEventHandlerFuncs where
  AddFunc : K8sObject → HandlerTrace
  UpdateFunc : K8sObject → K8sObject → HandlerTrace
  DeleteFunc : K8sObject → HandlerTrace

/-- The `informers.GenericInformer` as used by src/types.go: `Informer()`
exposes the indexed store (`GetIndexer`) and the registered handler list;
`Lister()` reads from the same store. -/
structure GenericInformer where
  indexer : CacheStore
  handlers : List ResourceEventHandlerFuncs

/-- `K8sResourceWatcher` from src/types.go. The `stop` channel and the
`lister` field (a view of `informer`) carry no state of their own and are
elided. -/
structure K8sResourceWatcher where
  Gvr : GroupVersionResource
  Namespace : String
  queue : List String
  informer : GenericInformer

/-- `dynamicinformer.NewFilteredDynamicInformer` (client-go): a fresh informer
whose indexer starts empty and carries exactly the supplied index functions,
with no handlers registered yet. -/
def NewFilteredDynamicInformer (client : DynamicClient)
    (resource : GroupVersionResource) (nspace : String) (resync : Nat)
    (indexers : List (String × IndexFunc)) (tweak : TweakListOptionsFunc) :
    GenericInformer :=
  { indexer := { items := [], indexers := indexers }, handlers := [] }

/-- `NewDynamicWatcher` from src/types.go: start from the default namespace
index, overwrite/extend it with the caller-supplied indexers when any were
given, build the filtered dynamic informer over the merged indexers and a
fresh (empty) rate-limited work queue. The Go code never assigns the `Gvr`
field, so it keeps its zero value. -/
def NewDynamicWatcher (client : DynamicClient) (resource : GroupVersionResource)
    (nspace : String) (resync : Nat) (indexers : List (String × IndexFunc))
    (listOptionsFunc : TweakListOptionsFunc) : K8sResourceWatcher :=
  let defaultIndexers : List (String × IndexFunc) :=
    [(NamespaceIndex, MetaNamespaceIndexFunc)]
  let defaultIndexers :=
    if indexers.length > 0 then
      indexers.foldl (fun m p => assocUpsert m p.1 p.2) defaultIndexers
    else defaultIndexers
  let informer :=
    NewFilteredDynamicInformer client resource nspace resync defaultIndexers listOptionsFunc
  let queue : List String := []
  { Gvr := { Group := "", Version := "", Resource := "" }
    Namespace := nspace
    queue := queue
    informer := informer }

/-- The namespace-scoped lister read
(`informer.Lister().ByNamespace(ns).List(labels.Everything())`): all cached
objects in the namespace, and a nil error. -/
def listerByNamespaceList (s : CacheStore) (nspace : String) :
    List K8sObject × Option GoError :=
  ((s.items.filter (fun p => p.2.Namespace = nspace)).map Prod.snd, none)

/-- `GetObjectsInNamespace` from src/types.go: performs the namespace-scoped
list against the informer's store and discards both the objects and the
error; the Go method has no return values. -/
def K8sResourceWatcher.GetObjectsInNamespace (w : K8sResourceWatcher)
    (nspace : String) : Unit :=
  let _ := listerByNamespaceList w.informer.indexer nspace
  ()

/-- `GetObject` from src/types.go: compose the key — "namespace/name" when the
namespace is non-empty, the bare name otherwise — and pass it, as a plain Go
string, to `informer.Informer().GetIndexer().Get`. -/
def K8sResourceWatcher.GetObject (w : K8sResourceWatcher) (nspace name : String) :
    Option K8sObject × Bool × Option GoError :=
  let key := if nspace.length > 0 then nspace ++ "/" ++ name else name
  w.informer.indexer.Get (StoreArg.str key)

/-- `AddEventHandler` from src/types.go: register the three caller callbacks
as a `ResourceEventHandlerFuncs` on the informer. The queue-feeding variant in
the source is commented out; the registered functions are exactly the caller's
callbacks. -/
def K8sResourceWatcher.AddEventHandler (w : K8sResourceWatcher)
    (addHandler delHandler : K8sObject → HandlerTrace)
    (updateHandler : K8sObject → K8sObject → HandlerTrace) : K8sResourceWatcher :=
  { w with informer :=
      { w.informer with handlers := w.informer.handlers ++
          [{ AddFunc := addHandler
             UpdateFunc := updateHandler
             DeleteFunc := delHandler }] } }

/-- One observed transition on the watch stream, as the shared informer
classifies it. -/
inductive InformerEvent where
  | add (obj : K8sObject)
  | update (oldObj newObj : K8sObject)
  | delete (obj : K8sObject)

/-- The shared informer's store maintenance for one event: add/update upsert
the object under its namespace/name key, delete removes it. -/
def applyEventToStore (s : CacheStore) : InformerEvent → CacheStore
  | .add obj =>
      { s with items := assocUpsert s.items (metaNamespaceKeyOfObject obj) obj }
  | .update _ newObj =>
      { s with items := assocUpsert s.items (metaNamespaceKeyOfObject newObj) newObj }
  | .delete obj =>
      { s with items := s.items.filter (fun p => p.1 ≠ metaNamespaceKeyOfObject obj) }

/-- Invoke the matching callback of one registered
`ResourceEventHandlerFuncs` for one event. -/
def deliver (h : ResourceEventHandlerFuncs) : InformerEvent → HandlerTrace
  | .add obj => h.AddFunc obj
  | .update oldObj newObj => h.UpdateFunc oldObj newObj
  | .delete obj => h.DeleteFunc obj

/-- One step of the shared informer's event processing on a watcher: update
the indexed store, then fan the event out to every registered handler in
registration order. The only references to the watcher's work queue in
src/types.go sit inside the commented-out block of `AddEventHandler`, so
event processing leaves `queue` untouched. -/
def K8sResourceWatcher.dispatchEvent (w : K8sResourceWatcher) (e : InformerEvent) :
    K8sResourceWatcher × HandlerTrace :=
  ({ w with informer :=
      { w.informer with indexer := applyEventToStore w.informer.indexer e } },
   (w.informer.handlers.map (fun h => deliver h e)).flatten)

/-- Fold `dispatchEvent` over a sequence of observed events. -/
def K8sResourceWatcher.dispatchAll (w : K8sResourceWatcher)
    (es : List InformerEvent) : K8sResourceWatcher :=
  es.foldl (fun w e => (w.dispatchEvent e).1) w

/-- One caller-supplied (add, delete, update) callback triple, in the
argument order of `AddEventHandler`. -/
def HandlerTriple :=
  (K8sObject → HandlerTrace) × (K8sObject → HandlerTrace) ×
    (K8sObject → K8sObject → HandlerTrace)

/-- Register a list of handler triples through `AddEventHandler`. -/
def registerHandlers (w : K8sResourceWatcher) (hs : List HandlerTriple) :
    K8sResourceWatcher :=
  hs.foldl (fun w h => w.AddEventHandler h.1 h.2.1 h.2.2) w

/-- Whether the single-object apply of `obj` under field manager `fm` on
client `c` succeeds (its `Create` returns nil). -/
def applyOk (c : GenericK8sClient) (fm : String) (obj : K8sObject) : Bool :=
  (c.runtimeCluster.client.createErr obj { FieldManager := fm }).isNone

/- Concrete instances used by the witness and counterexample theorems. -/

def idTweak : TweakListOptionsFunc := fun o => o

def gvrDeployments : GroupVersionResource :=
  { Group := "apps", Version := "v1", Resource := "deployments" }

def sampleGvk : GroupVersionKind :=
  { Group := "apps", Version := "v1", Kind := "Deployment" }

def sampleObj (nm : String) : K8sObject :=
  { Gvk := sampleGvk, Namespace := "default", Name := nm }

/-- A discovery surface that knows the apps/v1 deployments resource and fails
discovery for every other group/version; its connectivity probe succeeds. -/
def discoveryApps : DiscoveryClient :=
  { ServerResourcesForGroupVersion := fun gv =>
      if gv = "apps/v1" then
        .ok { APIResources := [{ Name := "deployments", Kind := "Deployment" }] }
      else
        .error "the server could not find the requested resource"
    serverVersionErr := none }

/-- A cluster client whose `Create` fails exactly on objects named `bad`. -/
def clientFailingOn (bad : String) : ClusterClient :=
  { createErr := fun obj _ => if obj.Name = bad then some "create failed" else none
    patchErr := fun _ _ => none }

/-- A concrete connected client whose `Create` fails exactly on objects named
`bad`. -/
def sampleClient (bad : String) : GenericK8sClient :=
  { TargetK8sApiServerId := "c1"
    AuthType := AuthTypeToken
    kubeConfigPresent := true
    restConfig := { Host := "https://10.0.0.1:6443", ServerName := "", BearerToken := "t" }
    runtimeCluster := { client := clientFailingOn bad, scheme := [] }
    standardClient := { DiscoveryClient := discoveryApps }
    dynamicClient := () }

/-- `sampleClient` with a different patch surface but the same `Create`
surface. -/
def samplePatchVariant (bad : String) : GenericK8sClient :=
  { sampleClient bad with runtimeCluster :=
      { (sampleClient bad).runtimeCluster with client :=
          { (sampleClient bad).runtimeCluster.client with
              patchErr := fun _ _ => some "patch unavailable" } } }

/-- A registration callback that registers `gv` and reports success. -/
def registerOk (gv : GroupVersion) :
    List GroupVersion → List GroupVersion × Option GoError :=
  fun s => (s ++ [gv], none)

/-- A registration callback that registers `gv` but reports an error, which
`AddScheme` discards. -/
def registerFailing (gv : GroupVersion) :
    List GroupVersion → List GroupVersion × Option GoError :=
  fun s => (s ++ [gv], some "registration failed")

def sampleGv : GroupVersion := { Group := "apps", Version := "v1" }

/-- A rest config pointing at an unreachable (TEST-NET) address. -/
def unreachableRestConfig : RestConfig :=
  { Host := "https://192.0.2.1:6443", ServerName := "", BearerToken := "" }

/-- A clientset whose connectivity probe fails with connection refused. -/
def unreachableClientset : Clientset :=
  { DiscoveryClient :=
      { ServerResourcesForGroupVersion := fun _ => .error "connection refused"
        serverVersionErr := some "connection refused" } }

/-- A build environment over an unreachable server: every offline construction
step succeeds, but any clientset it yields fails the `ServerVersion` probe. -/
def unreachableEnv : BuildEnv :=
  { defaultClientConfig := fun _ => .ok unreachableRestConfig
    dynamicNewForConfig := fun _ => .ok ()
    kubernetesNewForConfig := fun _ => .ok unreachableClientset
    clusterNew := fun _ =>
      .ok { client := { createErr := fun _ _ => some "connection refused"
                        patchErr := fun _ _ => some "connection refused" }
            scheme := [] }
    newClientConfigFromBytes := fun _ =>
      .ok { clientConfig := .ok unreachableRestConfig }
    inClusterConfig := .ok unreachableRestConfig }

/-- The cluster value `unreachableEnv.clusterNew` yields. -/
def unreachableCluster : Cluster :=
  { client := { createErr := fun _ _ => some "connection refused"
                patchErr := fun _ _ => some "connection refused" }
    scheme := [] }

/-- A caller-supplied index function indexing objects by their name. -/
def byNameIndexFunc : IndexFunc := fun o => [o.Name]

/-- A caller-supplied indexer set that reuses the default namespace index
name with a different index function. -/
def overridingIndexers : List (String × IndexFunc) :=
  [(NamespaceIndex, fun _ => [])]

/-- A watcher over an empty cache with one registered handler triple. -/
def watcherWithHandler : K8sResourceWatcher :=
  (NewDynamicWatcher () gvrDeployments "" 0 [] idTweak).AddEventHandler
    (fun _ => ["add-handled"]) (fun _ => ["del-handled"]) (fun _ _ => ["upd-handled"])

/-- A watcher whose cache has observed one Add event for
`sampleObj "cm"` (cache key "default/cm"). -/
def watcherWithOneObject : K8sResourceWatcher :=
  ((NewDynamicWatcher () gvrDeployments "" 0 [] idTweak).dispatchEvent
    (.add (sampleObj "cm"))).1

/-! Theorems. -/

theorem dispatchEvent_preserves_queue (w : K8sResourceWatcher) (e : InformerEvent) :
    (w.dispatchEvent e).1.queue = w.queue := rfl

theorem dispatchAll_preserves_queue (es : List InformerEvent) :
    ∀ w : K8sResourceWatcher, (w.dispatchAll es).queue = w.queue := by
  induction es with
  | nil => intro w; rfl
  | cons e es ih =>
      intro w
      show ((w.dispatchEvent e).1.dispatchAll es).queue = w.queue
      exact (ih _).trans (dispatchEvent_preserves_queue w e)

theorem addEventHandler_preserves_queue (w : K8sResourceWatcher)
    (a d : K8sObject → HandlerTrace) (u : K8sObject → K8sObject → HandlerTrace) :
    (w.AddEventHandler a d u).queue = w.queue := rfl

theorem registerHandlers_preserves_queue (hs : List HandlerTriple) :
    ∀ w : K8sResourceWatcher, (registerHandlers w hs).queue = w.queue := by
  induction hs with
  | nil => intro w; rfl
  | cons h hs ih =>
      intro w
      show (registerHandlers (w.AddEventHandler h.1 h.2.1 h.2.2) hs).queue = w.queue
      exact (ih _).trans (addEventHandler_preserves_queue w h.1 h.2.1 h.2.2)

/-- C1 counterexample: a watcher built by `NewDynamicWatcher` with one handler
triple registered via `AddEventHandler` delivers an Add event for
`sampleObj "cm"` to the handler (the trace shows the callback ran), yet the
affected object's cache key "default/cm" is not enqueued — the work queue
stays empty. -/
theorem watcher_event_does_not_enqueue_key :
    watcherWithHandler.informer.handlers.length = 1 ∧
    (watcherWithHandler.dispatchEvent (.add (sampleObj "cm"))).2 = ["add-handled"] ∧
    (watcherWithHandler.dispatchEvent (.add (sampleObj "cm"))).1.queue = [] ∧
    ((watcherWithHandler.dispatchEvent (.add (sampleObj "cm"))).1.queue.contains
        (metaNamespaceKeyOfObject (sampleObj "cm"))) = false :=
  ⟨rfl, rfl, rfl, rfl⟩

/-- C1 (amended): events delivered by a watcher built by `NewDynamicWatcher`
invoke the registered handlers only; no Add/Update/Delete event enqueues
anything onto the rate-limited work queue — after registering any handler
triples and dispatching any event sequence the queue is still the empty queue
the constructor created. -/
theorem watcher_queue_never_fed (client : DynamicClient)
    (resource : GroupVersionResource) (nspace : String) (resync : Nat)
    (indexers : List (String × IndexFunc)) (listOptionsFunc : TweakListOptionsFunc)
    (hs : List HandlerTriple) (es : List InformerEvent) :
    ((registerHandlers
        (NewDynamicWatcher client resource nspace resync indexers listOptionsFunc)
        hs).dispatchAll es).queue = [] := by
  rw [dispatchAll_preserves_queue, registerHandlers_preserves_queue]
  rfl

theorem applyBatch_cons (c : GenericK8sClient) (fm : String) (o : K8sObject)
    (rest : List K8sObject) :
    c.ApplyUnstructuredObjsBatch (o :: rest) fm =
      if applyOk c fm o then
        ((c.ApplyUnstructuredObj o fm).1 :: (c.ApplyUnstructuredObjsBatch rest fm).1,
          (c.ApplyUnstructuredObjsBatch rest fm).2)
      else
        ((c.ApplyUnstructuredObjsBatch rest fm).1,
          (c.ApplyUnstructuredObj o fm).1 :: (c.ApplyUnstructuredObjsBatch rest fm).2) := by
  cases hce : c.runtimeCluster.client.createErr o { FieldManager := fm } with
  | none =>
      have hok : applyOk c fm o = true := by simp [applyOk, hce]
      have h2 : (c.ApplyUnstructuredObj o fm).2 = none := hce
      simp only [GenericK8sClient.ApplyUnstructuredObjsBatch, h2, hok, if_true]
  | some e =>
      have hok : applyOk c fm o = false := by simp [applyOk, hce]
      have h2 : (c.ApplyUnstructuredObj o fm).2 = some e := hce
      simp only [GenericK8sClient.ApplyUnstructuredObjsBatch, h2, hok,
        Bool.false_eq_true, if_false]

theorem applyBatch_partition (c : GenericK8sClient) (fm : String)
    (objs : List K8sObject) :
    (c.ApplyUnstructuredObjsBatch objs fm).1 =
      (objs.filter (fun o => applyOk c fm o)).map (fun o => (c.ApplyUnstructuredObj o fm).1) ∧
    (c.ApplyUnstructuredObjsBatch objs fm).2 =
      (objs.filter (fun o => ! applyOk c fm o)).map (fun o => (c.ApplyUnstructuredObj o fm).1) := by
  induction objs with
  | nil => exact ⟨rfl, rfl⟩
  | cons o rest ih =>
      obtain ⟨ih1, ih2⟩ := ih
      rw [applyBatch_cons]
      by_cases h : applyOk c fm o = true
      · simp [h, List.filter_cons, ih1, ih2]
      · have h' : applyOk c fm o = false := by simpa using h
        simp [h', List.filter_cons, ih1, ih2]

theorem filter_single_failure {α : Type} (p : α → Bool) :
    ∀ (l : List α) (k : Nat) (hk : k < l.length),
      p (l.get ⟨k, hk⟩) = false →
      (∀ j (hj : j < l.length), j ≠ k → p (l.get ⟨j, hj⟩) = true) →
      (l.filter p).length = l.length - 1 ∧
        l.filter (fun a => ! p a) = [l.get ⟨k, hk⟩] := by
  intro l
  induction l with
  | nil => intro k hk; exact absurd hk (by simp)
  | cons a rest ih =>
      intro k hk hfail hothers
      cases k with
      | zero =>
          have ha : p a = false := hfail
          have hrest : ∀ j (hj : j < rest.length), p (rest.get ⟨j, hj⟩) = true := by
            intro j hj
            exact hothers (j + 1) (by simpa using Nat.succ_lt_succ hj) (by simp)
          have hfr : rest.filter p = rest := by
            rw [List.filter_eq_self]
            intro x hx
            obtain ⟨⟨j, hj⟩, hxe⟩ := List.mem_iff_get.mp hx
            rw [← hxe]
            simpa using hrest j hj
          have hfn : rest.filter (fun a => ! p a) = [] := by
            rw [List.filter_eq_nil_iff]
            intro x hx
            obtain ⟨⟨j, hj⟩, hxe⟩ := List.mem_iff_get.mp hx
            rw [← hxe]
            simpa using hrest j hj
          constructor
          · simp [List.filter_cons, ha, hfr]
          · simp [List.filter_cons, ha, hfn]
      | succ j =>
          have hj : j < rest.length := by simpa using Nat.lt_of_succ_lt_succ hk
          have ha : p a = true := hothers 0 (by simp) (by simp)
          have hfail' : p (rest.get ⟨j, hj⟩) = false := hfail
          have hothers' : ∀ i (hi : i < rest.length), i ≠ j →
              p (rest.get ⟨i, hi⟩) = true := by
            intro i hi hne
            exact hothers (i + 1) (by simpa using Nat.succ_lt_succ hi)
              (fun hh => hne (Nat.succ_injective hh))
          obtain ⟨ihl, ihf⟩ := ih j hj hfail' hothers'
          constructor
          · simp only [List.filter_cons, ha, if_true, List.length_cons, ihl]
            omega
          · simp [List.filter_cons, ha, ihf]

/-- C2: `ApplyUnstructuredObjsBatch` applies the objects independently in the
given order and continues past failures: the success collection is the ordered
results of the succeeding inputs, the failure collection the ordered results
of the failing inputs; when exactly one object (at position k) fails, the
success collection has N-1 entries and the failure collection is exactly the
one result identifying object k (its echoed result object is object k). -/
theorem applyBatch_single_failure (c : GenericK8sClient) (fm : String)
    (objs : List K8sObject) (k : Nat) (hk : k < objs.length)
    (hfail : applyOk c fm (objs.get ⟨k, hk⟩) = false)
    (hothers : ∀ j (hj : j < objs.length), j ≠ k → applyOk c fm (objs.get ⟨j, hj⟩) = true) :
    (c.ApplyUnstructuredObjsBatch objs fm).1 =
      (objs.filter (fun o => applyOk c fm o)).map (fun o => (c.ApplyUnstructuredObj o fm).1) ∧
    (c.ApplyUnstructuredObjsBatch objs fm).2 =
      (objs.filter (fun o => ! applyOk c fm o)).map (fun o => (c.ApplyUnstructuredObj o fm).1) ∧
    (c.ApplyUnstructuredObjsBatch objs fm).1.length = objs.length - 1 ∧
    (c.ApplyUnstructuredObjsBatch objs fm).2 =
      [(c.ApplyUnstructuredObj (objs.get ⟨k, hk⟩) fm).1] ∧
    (c.ApplyUnstructuredObjsBatch objs fm).2.map (fun r => r.ResultObject) =
      [some (objs.get ⟨k, hk⟩)] := by
  obtain ⟨h1, h2⟩ := applyBatch_partition c fm objs
  obtain ⟨hl, hf⟩ := filter_single_failure (fun o => applyOk c fm o) objs k hk hfail hothers
  refine ⟨h1, h2, ?_, ?_, ?_⟩
  · rw [h1, List.length_map]; exact hl
  · rw [h2, hf]; rfl
  · rw [h2, hf]; rfl

/-- C2 witness: a concrete batch of three objects whose middle object fails:
two ordered successes, one failure identifying the middle object. -/
theorem applyBatch_single_failure_witness :
    ((sampleClient "bad").ApplyUnstructuredObjsBatch
        [sampleObj "a", sampleObj "bad", sampleObj "c"] "mgr").1 =
      (([sampleObj "a", sampleObj "bad", sampleObj "c"].filter
          (fun o => applyOk (sampleClient "bad") "mgr" o)).map
        (fun o => ((sampleClient "bad").ApplyUnstructuredObj o "mgr").1)) ∧
    ((sampleClient "bad").ApplyUnstructuredObjsBatch
        [sampleObj "a", sampleObj "bad", sampleObj "c"] "mgr").2 =
      (([sampleObj "a", sampleObj "bad", sampleObj "c"].filter
          (fun o => ! applyOk (sampleClient "bad") "mgr" o)).map
        (fun o => ((sampleClient "bad").ApplyUnstructuredObj o "mgr").1)) ∧
    ((sampleClient "bad").ApplyUnstructuredObjsBatch
        [sampleObj "a", sampleObj "bad", sampleObj "c"] "mgr").1.length = 2 ∧
    ((sampleClient "bad").ApplyUnstructuredObjsBatch
        [sampleObj "a", sampleObj "bad", sampleObj "c"] "mgr").2 =
      [((sampleClient "bad").ApplyUnstructuredObj (sampleObj "bad") "mgr").1] ∧
    (((sampleClient "bad").ApplyUnstructuredObjsBatch
        [sampleObj "a", sampleObj "bad", sampleObj "c"] "mgr").2.map
      (fun r => r.ResultObject)) = [some (sampleObj "bad")] :=
  applyBatch_single_failure (sampleClient "bad") "mgr"
    [sampleObj "a", sampleObj "bad", sampleObj "c"] 1 (by decide) (by decide)
    (by
      intro j hj hne
      rcases j with _ | _ | _ | j
      · show applyOk (sampleClient "bad") "mgr" (sampleObj "a") = true
        decide
      · exact absurd rfl hne
      · show applyOk (sampleClient "bad") "mgr" (sampleObj "c") = true
        decide
      · simp only [List.length_cons, List.length_nil] at hj; omega)

/-- C3: `GvkToGvr` queries discovery for the kind's group/version; on a
successful discovery whose resource list has an entry with matching Kind it
returns, error-free, a GVR made of the input's group and version and the
entry's resource name; with no matching entry it returns the not-found error
message carrying the original kind (the message ends in the kind); and a
discovery error is propagated verbatim, not masked. -/
theorem gvkToGvr_spec (c : GenericK8sClient) (gvk : GroupVersionKind) :
    (∀ L r,
        c.GetStandardClient.DiscoveryClient.ServerResourcesForGroupVersion
            gvk.groupVersion.toStr = .ok L →
        L.APIResources.find? (fun resource => resource.Kind = gvk.Kind) = some r →
        c.GvkToGvr gvk =
          .ok { Group := gvk.Group, Version := gvk.Version, Resource := r.Name }) ∧
    (∀ L,
        c.GetStandardClient.DiscoveryClient.ServerResourcesForGroupVersion
            gvk.groupVersion.toStr = .ok L →
        L.APIResources.find? (fun resource => resource.Kind = gvk.Kind) = none →
        c.GvkToGvr gvk = .error ("未找到目标资源:" ++ gvk.toStr) ∧
          ∃ pre, "未找到目标资源:" ++ gvk.toStr = pre ++ gvk.Kind) ∧
    (∀ e,
        c.GetStandardClient.DiscoveryClient.ServerResourcesForGroupVersion
            gvk.groupVersion.toStr = .error e →
        c.GvkToGvr gvk = .error e) := by
  refine ⟨?_, ?_, ?_⟩
  · intro L r hL hr
    simp [GenericK8sClient.GvkToGvr, hL, hr]
  · intro L hL hr
    refine ⟨by simp [GenericK8sClient.GvkToGvr, hL, hr], ?_⟩
    exact ⟨"未找到目标资源:" ++ (gvk.Group ++ "/" ++ gvk.Version ++ ", Kind="),
      (String.append_assoc _ _ _).symm⟩
  · intro e hL
    simp [GenericK8sClient.GvkToGvr, hL]

/-- C3 witness: on a concrete client whose discovery knows only apps/v1
deployments — a matching kind resolves to the deployments GVR, an unknown
kind in a known group/version yields the not-found message, and an unknown
group/version propagates the discovery error. -/
theorem gvkToGvr_spec_witness :
    (sampleClient "bad").GvkToGvr sampleGvk =
      .ok { Group := "apps", Version := "v1", Resource := "deployments" } ∧
    ((sampleClient "bad").GvkToGvr { Group := "apps", Version := "v1", Kind := "Gadget" } =
        .error ("未找到目标资源:" ++
          GroupVersionKind.toStr { Group := "apps", Version := "v1", Kind := "Gadget" }) ∧
      ∃ pre, "未找到目标资源:" ++
          GroupVersionKind.toStr { Group := "apps", Version := "v1", Kind := "Gadget" } =
        pre ++ "Gadget") ∧
    (sampleClient "bad").GvkToGvr { Group := "widgets.io", Version := "v1", Kind := "Widget" } =
      .error "the server could not find the requested resource" := by
  refine ⟨?_, ?_, ?_⟩
  · exact (gvkToGvr_spec (sampleClient "bad") sampleGvk).1
      { APIResources := [{ Name := "deployments", Kind := "Deployment" }] }
      { Name := "deployments", Kind := "Deployment" } rfl rfl
  · exact (gvkToGvr_spec (sampleClient "bad")
      { Group := "apps", Version := "v1", Kind := "Gadget" }).2.1
      { APIResources := [{ Name := "deployments", Kind := "Deployment" }] } rfl rfl
  · exact (gvkToGvr_spec (sampleClient "bad")
      { Group := "widgets.io", Version := "v1", Kind := "Widget" }).2.2
      "the server could not find the requested resource" rfl

/-- C4: against an environment whose server is unreachable (every clientset it
builds fails the `ServerVersion` probe with error `e`) but whose offline
construction steps succeed, token-mode construction performs no probe and
succeeds — returning a client whose stored standard client would fail the
probe at first use — while config-bytes and in-cluster construction both fail
at construction time with the connectivity wrap of `e`. -/
theorem construction_probe_policy (env : BuildEnv)
    (id1 id2 id3 apiServerUrl token caPem optionalTLSServerName : String)
    (skipTLSVerify : Bool) (kubeConfigBytes overrideSNI : String)
    (rcT : RestConfig) (handle : ClientConfigHandle) (rcB rcI : RestConfig)
    (dc0 : DynamicClient) (sc0 : Clientset) (cl0 : Cluster) (e : GoError)
    (htok : env.defaultClientConfig
        (tokenKubeConfig apiServerUrl token caPem optionalTLSServerName skipTLSVerify) =
      .ok rcT)
    (hdyn : ∀ rc, env.dynamicNewForConfig rc = .ok dc0)
    (hk8s : ∀ rc, env.kubernetesNewForConfig rc = .ok sc0)
    (hsv : sc0.DiscoveryClient.serverVersionErr = some e)
    (hclu : ∀ rc, env.clusterNew rc = .ok cl0)
    (hbytes : env.newClientConfigFromBytes kubeConfigBytes = .ok handle)
    (hhandle : handle.clientConfig = .ok rcB)
    (hin : env.inClusterConfig = .ok rcI) :
    NewGenericK8sClientWithToken env id1 apiServerUrl token caPem
        optionalTLSServerName skipTLSVerify =
      .ok { TargetK8sApiServerId := id1
            AuthType := AuthTypeToken
            kubeConfigPresent := true
            restConfig := rcT
            standardClient := sc0
            dynamicClient := dc0
            runtimeCluster := cl0 } ∧
    NewGenericK8sClientWithKubeConfigBytes env id2 kubeConfigBytes overrideSNI =
      .error (errorsWrap e "无法连接到集群") ∧
    NewGenericK8sClientInCluster env id3 = .error (errorsWrap e "无法连接到集群") := by
  refine ⟨?_, ?_, ?_⟩
  · simp only [NewGenericK8sClientWithToken, newGenericK8sClientWithKubeConfigObj,
      htok, hdyn, hk8s, hclu]
  · simp only [NewGenericK8sClientWithKubeConfigBytes,
      newGenericK8sClientWithRestConfig, hbytes, hhandle, hdyn, hk8s, hsv]
  · simp only [NewGenericK8sClientInCluster,
      newGenericK8sClientWithRestConfig, hin, hdyn, hk8s, hsv]

/-- C4 witness: on the concrete `unreachableEnv`, token-mode construction
succeeds while config-bytes and in-cluster construction fail with the
connectivity wrap. -/
theorem construction_probe_policy_witness :
    NewGenericK8sClientWithToken unreachableEnv "cl-token" "https://203.0.113.9:6443"
        "tok" "" "" false =
      .ok { TargetK8sApiServerId := "cl-token"
            AuthType := AuthTypeToken
            kubeConfigPresent := true
            restConfig := unreachableRestConfig
            standardClient := unreachableClientset
            dynamicClient := ()
            runtimeCluster := unreachableCluster } ∧
    NewGenericK8sClientWithKubeConfigBytes unreachableEnv "cl-bytes"
        "apiVersion: v1" "" =
      .error (errorsWrap "connection refused" "无法连接到集群") ∧
    NewGenericK8sClientInCluster unreachableEnv "cl-in" =
      .error (errorsWrap "connection refused" "无法连接到集群") :=
  construction_probe_policy unreachableEnv "cl-token" "cl-bytes" "cl-in"
    "https://203.0.113.9:6443" "tok" "" "" false "apiVersion: v1" ""
    unreachableRestConfig { clientConfig := .ok unreachableRestConfig }
    unreachableRestConfig unreachableRestConfig () unreachableClientset
    unreachableCluster "connection refused"
    rfl (fun _ => rfl) (fun _ => rfl) rfl (fun _ => rfl) rfl rfl rfl

/-- C5: `AddScheme` checks registration before invoking the callback, so —
starting from a scheme where `gv` is not yet registered, with a callback that
does register `gv` (the source requires `gv` and `addSchemeFunc` to come from
the same API package) — two successive `AddScheme` calls for the same
group/version run the callback exactly once: on the first call and not on the
second. -/
theorem addScheme_twice_invokes_once (c : GenericK8sClient) (gv : GroupVersion)
    (addSchemeFunc : List GroupVersion → List GroupVersion × Option GoError)
    (h0 : IsVersionRegistered c.runtimeCluster.scheme gv = false)
    (h1 : IsVersionRegistered (addSchemeFunc c.runtimeCluster.scheme).1 gv = true) :
    (c.AddScheme gv addSchemeFunc).2 = true ∧
    (((c.AddScheme gv addSchemeFunc).1).AddScheme gv addSchemeFunc).2 = false ∧
    cond (c.AddScheme gv addSchemeFunc).2 1 0 +
      cond (((c.AddScheme gv addSchemeFunc).1).AddScheme gv addSchemeFunc).2 1 0 = 1 := by
  simp [GenericK8sClient.AddScheme, h0, h1]

/-- C5 witness: on a concrete client with an empty scheme and the callback
`registerOk sampleGv`, the two calls invoke the callback exactly once. -/
theorem addScheme_twice_invokes_once_witness :
    ((sampleClient "bad").AddScheme sampleGv (registerOk sampleGv)).2 = true ∧
    ((((sampleClient "bad").AddScheme sampleGv (registerOk sampleGv)).1).AddScheme
        sampleGv (registerOk sampleGv)).2 = false ∧
    cond ((sampleClient "bad").AddScheme sampleGv (registerOk sampleGv)).2 1 0 +
      cond ((((sampleClient "bad").AddScheme sampleGv (registerOk sampleGv)).1).AddScheme
          sampleGv (registerOk sampleGv)).2 1 0 = 1 :=
  addScheme_twice_invokes_once (sampleClient "bad") sampleGv (registerOk sampleGv)
    (by decide) (by decide)

/-- C10: `AddScheme` discards the error the registration callback returns and
itself returns nothing beyond the updated client, so two callbacks with the
same registration effect but different errors — one failing, one succeeding —
leave the caller with identical results: a failed registration is
indistinguishable from a successful one. -/
theorem addScheme_discards_callback_error (c : GenericK8sClient) (gv : GroupVersion)
    (f g : List GroupVersion → List GroupVersion × Option GoError)
    (h : ∀ s, (f s).1 = (g s).1) :
    c.AddScheme gv f = c.AddScheme gv g := by
  simp [GenericK8sClient.AddScheme, h]

/-- C10 witness: a concrete failing callback and a concrete succeeding one
with the same registration effect produce identical `AddScheme` outcomes. -/
theorem addScheme_discards_callback_error_witness :
    (sampleClient "bad").AddScheme sampleGv (registerFailing sampleGv) =
      (sampleClient "bad").AddScheme sampleGv (registerOk sampleGv) :=
  addScheme_discards_callback_error (sampleClient "bad") sampleGv
    (registerFailing sampleGv) (registerOk sampleGv) (fun _ => rfl)

/-- C6 (code bug): the composed key is correct and the object sits in the
cache under it — `GetByKey "default/cm"` finds it — but `GetObject` passes the
key as a plain Go string to the indexer's `Get`, whose key function rejects a
string, so every `GetObject` call (hit or miss alike) returns exists=false
together with a non-nil KeyError instead of the cached object or a clean
miss. -/
theorem getObject_string_key_always_errors :
    watcherWithOneObject.informer.indexer.items.lookup "default/cm" =
      some (sampleObj "cm") ∧
    watcherWithOneObject.informer.indexer.GetByKey "default/cm" =
      (some (sampleObj "cm"), true, none) ∧
    watcherWithOneObject.GetObject "default" "cm" =
      (none, false, some ("could not create key for object: object has no meta: object does not implement the Object interfaces")) ∧
    (NewDynamicWatcher () gvrDeployments "" 0 [] idTweak).GetObject "default" "absent" =
      (none, false, some ("could not create key for object: object has no meta: object does not implement the Object interfaces")) :=
  ⟨rfl, rfl, rfl, rfl⟩

/-- C7: `ApplyUnstructuredObj` consults only the create surface of the
cluster's client (two clients agreeing on `Create` produce identical results,
whatever their patch surfaces do), its Success flag is true exactly when the
create returned no error, its Error field is that error, and its result
object echoes the submitted object. -/
theorem applyUnstructuredObj_create_result (c c' : GenericK8sClient)
    (obj : K8sObject) (fm : String)
    (hc : c.runtimeCluster.client.createErr = c'.runtimeCluster.client.createErr) :
    ((c.ApplyUnstructuredObj obj fm).1.Success = true ↔
      c.runtimeCluster.client.createErr obj { FieldManager := fm } = none) ∧
    (c.ApplyUnstructuredObj obj fm).1.Error =
      c.runtimeCluster.client.createErr obj { FieldManager := fm } ∧
    (c.ApplyUnstructuredObj obj fm).1.Gvk = obj.Gvk ∧
    (c.ApplyUnstructuredObj obj fm).1.ResultObject = some obj ∧
    (c.ApplyUnstructuredObj obj fm).2 =
      c.runtimeCluster.client.createErr obj { FieldManager := fm } ∧
    c.ApplyUnstructuredObj obj fm = c'.ApplyUnstructuredObj obj fm := by
  refine ⟨?_, rfl, rfl, rfl, rfl, ?_⟩
  · simp [GenericK8sClient.ApplyUnstructuredObj, GenericK8sClient.GetRuntimeCluster,
      Cluster.GetClient, Option.isNone_iff_eq_none]
  · simp [GenericK8sClient.ApplyUnstructuredObj, GenericK8sClient.GetRuntimeCluster,
      Cluster.GetClient, hc]

/-- C7 witness: on a concrete client, a successful create yields Success=true
with the submitted object echoed, and a patch-surface variant of the client
produces the identical result. -/
theorem applyUnstructuredObj_create_result_witness :
    ((sampleClient "bad").ApplyUnstructuredObj (sampleObj "web") "mgr").1.Success = true ∧
    ((sampleClient "bad").ApplyUnstructuredObj (sampleObj "web") "mgr").1.ResultObject =
      some (sampleObj "web") ∧
    (sampleClient "bad").ApplyUnstructuredObj (sampleObj "web") "mgr" =
      (samplePatchVariant "bad").ApplyUnstructuredObj (sampleObj "web") "mgr" := by
  have h := applyUnstructuredObj_create_result (sampleClient "bad")
    (samplePatchVariant "bad") (sampleObj "web") "mgr" rfl
  exact ⟨h.1.mpr (by decide), h.2.2.2.1, h.2.2.2.2.2⟩

theorem lookup_map_overwrite {α : Type} (k : String) (v : α) :
    ∀ m : List (String × α),
      (m.map (fun p => if p.1 = k then (k, v) else p)).lookup k =
        (m.lookup k).map (fun _ => v) := by
  intro m
  induction m with
  | nil => rfl
  | cons a m ih =>
      obtain ⟨ak, av⟩ := a
      by_cases h1 : ak = k
      · have hb : (k == k) = true := beq_self_eq_true k
        simp [List.lookup_cons, h1, hb]
      · have hb : (k == ak) = false := beq_eq_false_iff_ne.mpr (fun hh => h1 hh.symm)
        simp only [List.map_cons, if_neg h1, List.lookup_cons, hb, ih]

theorem lookup_map_overwrite_ne {α : Type} (k k' : String) (hne : k' ≠ k) (v : α) :
    ∀ m : List (String × α),
      (m.map (fun p => if p.1 = k then (k, v) else p)).lookup k' = m.lookup k' := by
  intro m
  induction m with
  | nil => rfl
  | cons a m ih =>
      obtain ⟨ak, av⟩ := a
      by_cases h1 : ak = k
      · have hb : (k' == k) = false := beq_eq_false_iff_ne.mpr hne
        have hb2 : (k' == ak) = false :=
          beq_eq_false_iff_ne.mpr (fun hh => hne (hh.trans h1))
        simp only [List.map_cons, if_pos h1, List.lookup_cons, hb, hb2, ih]
      · by_cases h2 : k' = ak
        · have hb : (k' == ak) = true := beq_iff_eq.mpr h2
          simp only [List.map_cons, if_neg h1, List.lookup_cons, hb]
        · have hb : (k' == ak) = false := beq_eq_false_iff_ne.mpr h2
          simp only [List.map_cons, if_neg h1, List.lookup_cons, hb, ih]

theorem lookup_assocUpsert {α : Type} (m : List (String × α)) (k k' : String)
    (v : α) :
    (assocUpsert m k v).lookup k' = if k' = k then some v else m.lookup k' := by
  unfold assocUpsert
  by_cases hs : (m.lookup k).isSome
  · rw [if_pos hs]
    by_cases hk : k' = k
    · subst hk
      rw [if_pos rfl, lookup_map_overwrite]
      obtain ⟨w, hw⟩ := Option.isSome_iff_exists.mp hs
      simp [hw]
    · rw [if_neg hk, lookup_map_overwrite_ne k k' hk]
  · rw [if_neg hs, List.lookup_append]
    by_cases hk : k' = k
    · subst hk
      have h0 : m.lookup k' = none := Option.not_isSome_iff_eq_none.mp hs
      have hb : (k' == k') = true := beq_self_eq_true k'
      simp [h0, List.lookup_cons, hb]
    · have hb : (k' == k) = false := beq_eq_false_iff_ne.mpr hk
      simp [List.lookup_cons, hb, if_neg hk]

theorem lookup_foldl_upsert_of_not_mem {α : Type} (k : String) :
    ∀ (l init : List (String × α)), k ∉ l.map Prod.fst →
      (l.foldl (fun m p => assocUpsert m p.1 p.2) init).lookup k = init.lookup k := by
  intro l
  induction l with
  | nil => intro init _; rfl
  | cons p l ih =>
      intro init hk
      have hk1 : k ≠ p.1 := by
        intro hh
        exact hk (by simp [hh])
      have hk2 : k ∉ l.map Prod.fst := by
        intro hh
        exact hk (by simp [hh])
      show (l.foldl (fun m p => assocUpsert m p.1 p.2) (assocUpsert init p.1 p.2)).lookup k =
        init.lookup k
      rw [ih _ hk2, lookup_assocUpsert, if_neg hk1]

theorem lookup_foldl_upsert_found {α : Type} (k : String) (v : α) :
    ∀ (l init : List (String × α)), (l.map Prod.fst).Nodup →
      l.lookup k = some v →
      (l.foldl (fun m p => assocUpsert m p.1 p.2) init).lookup k = some v := by
  intro l
  induction l with
  | nil => intro init _ h; simp at h
  | cons p l ih =>
      intro init hnd hlk
      obtain ⟨pk, pv⟩ := p
      rw [List.map_cons, List.nodup_cons] at hnd
      by_cases hk : k = pk
      · have hv : pv = v := by
          rw [List.lookup_cons] at hlk
          rw [show (k == pk) = true from beq_iff_eq.mpr hk] at hlk
          exact Option.some.inj hlk
        have hnot : k ∉ l.map Prod.fst := by
          rw [hk]
          exact hnd.1
        show (l.foldl (fun m p => assocUpsert m p.1 p.2) (assocUpsert init pk pv)).lookup k =
          some v
        rw [lookup_foldl_upsert_of_not_mem k l _ hnot, lookup_assocUpsert, if_pos hk, hv]
      · have hlk' : l.lookup k = some v := by
          rw [List.lookup_cons] at hlk
          rw [show (k == pk) = false from beq_eq_false_iff_ne.mpr hk] at hlk
          exact hlk
        show (l.foldl (fun m p => assocUpsert m p.1 p.2) (assocUpsert init pk pv)).lookup k =
          some v
        exact ih _ hnd.2 hlk'

theorem not_mem_keys_of_lookup_none {α : Type} (k : String) :
    ∀ l : List (String × α), l.lookup k = none → k ∉ l.map Prod.fst := by
  intro l
  induction l with
  | nil => intro _; simp
  | cons p l ih =>
      intro h
      obtain ⟨pk, pv⟩ := p
      rw [List.lookup_cons] at h
      by_cases hk : k = pk
      · rw [show (k == pk) = true from beq_iff_eq.mpr hk] at h
        exact absurd h (by simp)
      · rw [show (k == pk) = false from beq_eq_false_iff_ne.mpr hk] at h
        simp only [List.map_cons, List.mem_cons]
        rintro (hh | hh)
        · exact hk hh
        · exact (ih h) hh

/-- C8 counterexample: a caller-supplied index function registered under the
default index name "namespace" replaces the default namespace index in the
indexer set `NewDynamicWatcher` hands to the informer, so that set does not
contain `MetaNamespaceIndexFunc` under the namespace index name. -/
theorem callerIndexer_overrides_namespace_index :
    (NewDynamicWatcher () gvrDeployments "" 0 overridingIndexers
        idTweak).informer.indexer.indexers.lookup NamespaceIndex ≠
      some MetaNamespaceIndexFunc := by
  intro h
  have h2 : some (fun (_ : K8sObject) => ([] : List String)) =
      some MetaNamespaceIndexFunc := h
  have h3 := Option.some.inj h2
  have h4 : (fun (_ : K8sObject) => ([] : List String)) (sampleObj "x") =
      MetaNamespaceIndexFunc (sampleObj "x") := congrFun h3 (sampleObj "x")
  simp [MetaNamespaceIndexFunc] at h4

/-- C8 (amended): the indexer set `NewDynamicWatcher` hands to the informer
contains every caller-supplied index function under its caller-chosen name,
and contains the default namespace index (`MetaNamespaceIndexFunc` under the
name "namespace") whenever the caller did not supply an indexer under that
name; a caller-supplied indexer named "namespace" replaces the default. -/
theorem newDynamicWatcher_indexers (client : DynamicClient)
    (resource : GroupVersionResource) (nspace : String) (resync : Nat)
    (listOptionsFunc : TweakListOptionsFunc)
    (indexers : List (String × IndexFunc))
    (hnd : (indexers.map Prod.fst).Nodup) :
    (∀ k v, indexers.lookup k = some v →
      (NewDynamicWatcher client resource nspace resync indexers
          listOptionsFunc).informer.indexer.indexers.lookup k = some v) ∧
    (indexers.lookup NamespaceIndex = none →
      (NewDynamicWatcher client resource nspace resync indexers
          listOptionsFunc).informer.indexer.indexers.lookup NamespaceIndex =
        some MetaNamespaceIndexFunc) := by
  constructor
  · intro k v hlk
    show ((if indexers.length > 0 then
        indexers.foldl (fun m p => assocUpsert m p.1 p.2)
          [(NamespaceIndex, MetaNamespaceIndexFunc)]
      else [(NamespaceIndex, MetaNamespaceIndexFunc)])).lookup k = some v
    by_cases hl : indexers.length > 0
    · rw [if_pos hl]
      exact lookup_foldl_upsert_found k v indexers _ hnd hlk
    · have hnil : indexers = [] := List.length_eq_zero.mp (by omega)
      rw [hnil] at hlk
      simp at hlk
  · intro h0
    show ((if indexers.length > 0 then
        indexers.foldl (fun m p => assocUpsert m p.1 p.2)
          [(NamespaceIndex, MetaNamespaceIndexFunc)]
      else [(NamespaceIndex, MetaNamespaceIndexFunc)])).lookup NamespaceIndex =
      some MetaNamespaceIndexFunc
    by_cases hl : indexers.length > 0
    · rw [if_pos hl,
        lookup_foldl_upsert_of_not_mem NamespaceIndex indexers _
          (not_mem_keys_of_lookup_none NamespaceIndex indexers h0)]
      rfl
    · rw [if_neg hl]
      rfl

/-- C8 witness: with one caller-supplied indexer under the fresh name
"byName", the informer's indexer set maps "byName" to the caller's function
and still maps "namespace" to the default namespace index. -/
theorem newDynamicWatcher_indexers_witness :
    (NewDynamicWatcher () gvrDeployments "" 0 [("byName", byNameIndexFunc)]
        idTweak).informer.indexer.indexers.lookup "byName" = some byNameIndexFunc ∧
    (NewDynamicWatcher () gvrDeployments "" 0 [("byName", byNameIndexFunc)]
        idTweak).informer.indexer.indexers.lookup NamespaceIndex =
      some MetaNamespaceIndexFunc := by
  have h := newDynamicWatcher_indexers () gvrDeployments "" 0 idTweak
    [("byName", byNameIndexFunc)] (by simp)
  exact ⟨h.1 "byName" byNameIndexFunc rfl, h.2 rfl⟩

/-- C9: `GetObjectsInNamespace` returns no value — the result is the unit
value whatever the watcher and namespace are, so the caller can never observe
the listed objects (or the list error) through this method. -/
theorem getObjectsInNamespace_returns_nothing (w w' : K8sResourceWatcher)
    (ns1 ns2 : String) :
    w.GetObjectsInNamespace ns1 = () ∧
    w.GetObjectsInNamespace ns1 = w'.GetObjectsInNamespace ns2 :=
  ⟨rfl, rfl⟩

end K8sClientKit
